import Mathlib

/-!
Verification of the `crypto_price` skill
(`src/workspace/skills/crypto-price/__init__.py`).

The Python function issues up to three HTTP GET requests against a fixed
price provider and reshapes the JSON bodies into either a success dict
`{"token": ..., "price": ...}` or an error dict `{"error": ...}`.

Shallow embedding conventions:
* JSON values are the inductive `Json`; a JSON number is carried as the
  string Python's `str()` would render for it (the claims only ever
  inspect whole formatted message strings, never numeric structure), and
  whether that rendering contains a dot or exponent distinguishes
  `int` from `float` where Python type names matter.
* Python exceptions are an `Except PyExc` monad.  `PyExc.requestExc`
  stands for `requests.exceptions.RequestException` (raised by
  `requests.get` on transport failure, by `raise_for_status` on a
  non-2xx status, and by `.json()` on a malformed body: since
  requests 2.27 that raises `requests.exceptions.JSONDecodeError`,
  which derives from `InvalidJSONError` and hence from
  `RequestException`); `PyExc.otherExc` stands for every other
  exception (KeyError, TypeError, IndexError).
* The external service is a function from the exact URL string the
  source builds to an outcome: a transport-level failure, a received
  body that fails JSON decoding, or a decoded JSON body.
* `pyLower` models Python `str.lower` (they agree on ASCII, which is
  all the claims exercise).
* Dict/list membership and subscripting follow Python semantics on the
  shapes JSON decoding can produce: dict keys are strings, `in` on a
  string is a substring test, `in` on a non-container raises TypeError,
  subscripting a missing dict key raises KeyError whose `str()` is the
  `repr` of the key, and so on.  `repr` of strings is rendered without
  escaping inner quotes (no claim exercises that) and numeric
  cross-type equality (`5 == 5.0`) is approximated by equality of the
  carried renderings, which no claim exercises either.
-/

namespace CryptoPrice

/-- A decoded JSON value, as produced by `response.json()`. -/
inductive Json : Type where
  | null : Json
  | bool : Bool → Json
  | num : String → Json
  | str : String → Json
  | arr : List Json → Json
  | obj : List (String × Json) → Json
deriving Repr

/-- A single-quote character, used when rendering Python `repr` strings. -/
def squote : String := String.singleton (Char.ofNat 39)

/-- Whether a numeric rendering came from a Python int: no dot and no
exponent (Python `str` of a float always shows one of them). -/
def numIsIntRep (s : String) : Bool :=
  !(s.toList.any (fun c =>
    c == Char.ofNat 46 || c == Char.ofNat 101 || c == Char.ofNat 69))

/-- The Python type name of a decoded JSON value, as it appears in
TypeError messages. -/
def Json.pyTypeName : Json → String
  | .null => "NoneType"
  | .bool _ => "bool"
  | .num s => if numIsIntRep s then "int" else "float"
  | .str _ => "str"
  | .arr _ => "list"
  | .obj _ => "dict"

/-- Comma-join, as Python renders container contents. -/
def pyReprJoin : List String → String
  | [] => ""
  | [s] => s
  | s :: rest => s ++ ", " ++ pyReprJoin rest

mutual
/-- Python `repr` of a decoded JSON value (used for values nested in
containers and for `str(KeyError(k))`, which is `repr(k)`). -/
def Json.pyRepr : Json → String
  | .null => "None"
  | .bool b => if b then "True" else "False"
  | .num s => s
  | .str s => squote ++ s ++ squote
  | .arr xs => "[" ++ pyReprJoin (pyReprList xs) ++ "]"
  | .obj kvs => "\x7b" ++ pyReprJoin (pyReprObj kvs) ++ "\x7d"

/-- `repr` of each element of a JSON array. -/
def pyReprList : List Json → List String
  | [] => []
  | x :: xs => Json.pyRepr x :: pyReprList xs

/-- `repr` of each `key: value` pair of a JSON object. -/
def pyReprObj : List (String × Json) → List String
  | [] => []
  | (k, v) :: kvs =>
      (squote ++ k ++ squote ++ ": " ++ Json.pyRepr v) :: pyReprObj kvs
end

/-- Python `str()` of a decoded JSON value, as an f-string renders it. -/
def Json.pyStr : Json → String
  | .str s => s
  | v => Json.pyRepr v

mutual
/-- Python `==` on decoded JSON values (structural; numeric cross-type
equality such as `5 == 5.0` is approximated by rendering equality). -/
def Json.pyEq : Json → Json → Bool
  | .null, .null => true
  | .bool a, .bool b => a == b
  | .num a, .num b => a == b
  | .str a, .str b => a == b
  | .arr xs, .arr ys => pyEqList xs ys
  | .obj xs, .obj ys => pyEqObj xs ys
  | _, _ => false

/-- Elementwise `==` on JSON arrays. -/
def pyEqList : List Json → List Json → Bool
  | [], [] => true
  | x :: xs, y :: ys => Json.pyEq x y && pyEqList xs ys
  | _, _ => false

/-- Pairwise `==` on JSON objects (order-sensitive, adequate here). -/
def pyEqObj : List (String × Json) → List (String × Json) → Bool
  | [], [] => true
  | (k, v) :: xs, (l, w) :: ys => k == l && Json.pyEq v w && pyEqObj xs ys
  | _, _ => false
end

/-- Whether a JSON numeric rendering denotes zero: every digit of the
mantissa (the part before any exponent) is `0`. -/
def numIsZero (s : String) : Bool :=
  let m := s.toList.takeWhile (fun c =>
    !(c == Char.ofNat 101 || c == Char.ofNat 69))
  (m.filter Char.isDigit).all (fun c => c == Char.ofNat 48)

/-- Python truthiness of a decoded JSON value. -/
def Json.truthy : Json → Bool
  | .null => false
  | .bool b => b
  | .num s => !numIsZero s
  | .str s => !s.toList.isEmpty
  | .arr xs => !xs.isEmpty
  | .obj kvs => !kvs.isEmpty

/-- The two exception classes the source's `except` clauses distinguish:
`requests.exceptions.RequestException` and everything else.  The string
is Python's `str(e)`. -/
inductive PyExc : Type where
  | requestExc : String → PyExc
  | otherExc : String → PyExc
deriving Repr

/-- Computations that may raise a Python exception. -/
abbrev Py (α : Type) : Type := Except PyExc α

/-- Python `str.lower` (ASCII case folding; the Unicode cases Python
additionally folds are not exercised by any claim). -/
def pyLower (s : String) : String :=
  String.mk (s.toList.map Char.toLower)

/-- Decimal digit-run parser used to read an int rendering back. -/
def parseDigits (cs : List Char) : Option Nat :=
  if cs.isEmpty then none
  else if cs.all Char.isDigit then
    some (cs.foldl (fun n c => n * 10 + (c.toNat - 48)) 0)
  else none

/-- Read a Python int back from its `str()` rendering. -/
def parsePyInt (s : String) : Option Int :=
  match s.toList with
  | [] => none
  | c :: rest =>
      if c == Char.ofNat 45 then (parseDigits rest).map (fun n => -(n : Int))
      else (parseDigits (c :: rest)).map (fun n => (n : Int))

/-- Substring test, modelling Python `needle in haystack` on strings. -/
def strContainsSub (hay needle : String) : Bool :=
  let h := hay.toList
  let n := needle.toList
  (List.range (h.length + 1)).any (fun i => n.isPrefixOf (h.drop i))

/-- Python `key in container` on decoded JSON values.  Raises TypeError
on a non-container and on an unhashable key probed against a dict. -/
def pyContains (container key : Json) : Py Bool :=
  match container with
  | .obj kvs =>
      match key with
      | .str s => .ok (kvs.any (fun kv => kv.1 == s))
      | .arr _ =>
          .error (.otherExc ("unhashable type: " ++ squote ++ "list" ++ squote))
      | .obj _ =>
          .error (.otherExc ("unhashable type: " ++ squote ++ "dict" ++ squote))
      | _ => .ok false
  | .arr xs => .ok (xs.any (fun x => Json.pyEq key x))
  | .str s =>
      match key with
      | .str k => .ok (strContainsSub s k)
      | other =>
          .error (.otherExc
            (squote ++ "in <string>" ++ squote
              ++ " requires string as left operand, not " ++ other.pyTypeName))
  | other =>
      .error (.otherExc
        ("argument of type " ++ squote ++ other.pyTypeName ++ squote
          ++ " is not iterable"))

/-- Python `container[key]` on decoded JSON values: dict lookup with
KeyError on a miss, list indexing (ints only, negative offsets from the
end, IndexError out of range), string indexing, TypeError otherwise. -/
def pyGetKey (container key : Json) : Py Json :=
  match container with
  | .obj kvs =>
      match key with
      | .str s =>
          match kvs.find? (fun kv => kv.1 == s) with
          | some kv => .ok kv.2
          | none => .error (.otherExc (Json.pyRepr key))
      | .arr _ =>
          .error (.otherExc ("unhashable type: " ++ squote ++ "list" ++ squote))
      | .obj _ =>
          .error (.otherExc ("unhashable type: " ++ squote ++ "dict" ++ squote))
      | _ => .error (.otherExc (Json.pyRepr key))
  | .arr xs =>
      match key with
      | .num s =>
          if numIsIntRep s then
            match parsePyInt s with
            | some i =>
                let j : Int := if i < 0 then i + xs.length else i
                if j < 0 then .error (.otherExc "list index out of range")
                else
                  match xs.get? j.toNat with
                  | some x => .ok x
                  | none => .error (.otherExc "list index out of range")
            | none =>
                .error (.otherExc
                  "list indices must be integers or slices, not float")
          else
            .error (.otherExc
              "list indices must be integers or slices, not float")
      | .bool b =>
          match xs.get? (if b then 1 else 0) with
          | some x => .ok x
          | none => .error (.otherExc "list index out of range")
      | other =>
          .error (.otherExc
            ("list indices must be integers or slices, not "
              ++ other.pyTypeName))
  | .str s =>
      match key with
      | .num t =>
          if numIsIntRep t then
            match parsePyInt t with
            | some i =>
                let j : Int := if i < 0 then i + s.length else i
                if j < 0 then .error (.otherExc "string index out of range")
                else
                  match s.toList.get? j.toNat with
                  | some c => .ok (.str (String.singleton c))
                  | none => .error (.otherExc "string index out of range")
            | none => .error (.otherExc "string indices must be integers")
          else .error (.otherExc "string indices must be integers")
      | _ => .error (.otherExc "string indices must be integers")
  | other =>
      .error (.otherExc
        (squote ++ other.pyTypeName ++ squote ++ " object is not subscriptable"))

/-- Outcome of one `requests.get(url)` + `raise_for_status()` + `.json()`
interaction: a transport failure or HTTP error status (which raises a
`RequestException`), a received body that is not valid JSON (`.json()`
raises `requests.exceptions.JSONDecodeError`, also a
`RequestException`), or a decoded body. -/
inductive FetchOutcome : Type where
  | transportErr : String → FetchOutcome
  | badJson : String → FetchOutcome
  | ok : Json → FetchOutcome
deriving Repr

/-- The external price service: a response behaviour per URL. -/
structure Env : Type where
  fetch : String → FetchOutcome

/-- URL of `GET /simple/price?ids=<id>&vs_currencies=usd`, exactly as the
source's f-string builds it. -/
def priceUrl (ids : String) : String :=
  "https://api.coingecko.com/api/v3/simple/price?ids=" ++ ids
    ++ "&vs_currencies=usd"

/-- URL of `GET /search?query=<text>`, exactly as the source builds it. -/
def searchUrl (query : String) : String :=
  "https://api.coingecko.com/api/v3/search?query=" ++ query

/-- `requests.get(url)`, `raise_for_status()`, `.json()` as one step.
A malformed body also raises a `RequestException`:
`requests.exceptions.JSONDecodeError` derives (since requests 2.27)
from `InvalidJSONError` → `RequestException`, so the first `except`
clause catches it, like transport failures. -/
def fetchJson (env : Env) (url : String) : Py Json :=
  match env.fetch url with
  | .transportErr d => .error (.requestExc d)
  | .badJson d => .error (.requestExc d)
  | .ok v => .ok v

/-- The result dict: `{"token": ..., "price": ...}` or `{"error": ...}`. -/
inductive LookupOutcome : Type where
  | priceResult : String → String → LookupOutcome
  | errorResult : String → LookupOutcome
deriving Repr, DecidableEq

/-- The hit test the source applies to a price body, for the direct key
and for the resolved coin id alike:
`key in data and 'usd' in data[key]` (short-circuit `and`). -/
def hitCond (data key : Json) : Py Bool := do
  let b ← pyContains data key
  if b then
    let entry ← pyGetKey data key
    pyContains entry (Json.str "usd")
  else
    pure false

/-- `data[key]['usd']`, the price extraction on a hit. -/
def extractUsd (data key : Json) : Py Json := do
  let entry ← pyGetKey data key
  pyGetKey entry (Json.str "usd")

/-- The `else` branch of the source: search for the token, take the
first candidate's id, fetch its price.
`if search_data and search_data['coins']:` evaluates `search_data['coins']`
only when `search_data` is truthy, and the source reads
`search_data['coins']` a second time on the next line. -/
def searchFallback (env : Env) (token_name : String) : Py LookupOutcome := do
  let search_data ← fetchJson env (searchUrl token_name)
  let cond ←
    if search_data.truthy then do
      let coins ← pyGetKey search_data (Json.str "coins")
      pure coins.truthy
    else
      pure false
  if cond then do
    let coins ← pyGetKey search_data (Json.str "coins")
    let first ← pyGetKey coins (Json.num "0")
    let first_coin_id ← pyGetKey first (Json.str "id")
    let price_data ← fetchJson env (priceUrl first_coin_id.pyStr)
    let hit ← hitCond price_data first_coin_id
    if hit then do
      let price ← extractUsd price_data first_coin_id
      pure (.priceResult token_name
        ("$" ++ price.pyStr ++ " USD (found as " ++ first_coin_id.pyStr ++ ")"))
    else
      pure (.errorResult ("Could not find price for " ++ token_name ++ "."))
  else
    pure (.errorResult ("Could not find " ++ token_name ++ " or its price."))

/-- The body of the `try` block: direct lookup, else search fallback. -/
def cryptoPriceBody (env : Env) (token_name : String) : Py LookupOutcome := do
  let key := pyLower token_name
  let data ← fetchJson env (priceUrl key)
  let hit ← hitCond data (Json.str key)
  if hit then do
    let price ← extractUsd data (Json.str key)
    pure (.priceResult token_name ("$" ++ price.pyStr ++ " USD"))
  else
    searchFallback env token_name

/-- The two `except` clauses: `RequestException` becomes the transport
message, any other exception the generic message. -/
def handleExc : Py LookupOutcome → LookupOutcome
  | .ok r => r
  | .error (.requestExc d) =>
      .errorResult ("Failed to fetch crypto price: " ++ d)
  | .error (.otherExc d) =>
      .errorResult ("An unexpected error occurred: " ++ d)

/-- `crypto_price(token_name)`, the whole source function. -/
def crypto_price (env : Env) (token_name : String) : LookupOutcome :=
  handleExc (cryptoPriceBody env token_name)

/-! Helper evaluation lemmas shared by the claim theorems. -/

/-- Subscripting a nonempty list with the literal `0` yields its head. -/
lemma pyGetKey_arr_zero (x : Json) (xs : List Json) :
    pyGetKey (Json.arr (x :: xs)) (Json.num "0") = .ok x := rfl

/-- A nonempty JSON array is truthy. -/
lemma truthy_arr_cons (x : Json) (xs : List Json) :
    (Json.arr (x :: xs)).truthy = true := rfl

/-! Environments used to instantiate the claim theorems. -/

/-- Direct hit: the price body for key `bitcoin` carries a `usd` entry. -/
def envC1 : Env := ⟨fun u =>
  if u = priceUrl "bitcoin" then
    .ok (Json.obj [("bitcoin", Json.obj [("usd", Json.num "65000")])])
  else .transportErr "unreached"⟩

/-- Direct miss for `doge`; search resolves to first candidate
`dogecoin`, whose price body carries a `usd` entry. -/
def envC2 : Env := ⟨fun u =>
  if u = priceUrl "doge" then .ok (Json.obj [])
  else if u = searchUrl "DOGE" then
    .ok (Json.obj [("coins", Json.arr
      [Json.obj [("id", Json.str "dogecoin")],
       Json.obj [("id", Json.str "shiba")]])])
  else if u = priceUrl "dogecoin" then
    .ok (Json.obj [("dogecoin", Json.obj [("usd", Json.num "0.15")])])
  else .transportErr "unreached"⟩

/-- Direct miss; the search body is a non-empty object with no `coins`
field, so `search_data['coins']` raises KeyError. -/
def envC3cex : Env := ⟨fun u =>
  if u = priceUrl "foo" then .ok (Json.obj [])
  else if u = searchUrl "foo" then .ok (Json.obj [("notcoins", Json.null)])
  else .transportErr "unreached"⟩

/-- Direct miss; the search body has a present but empty `coins` list. -/
def envC3w : Env := ⟨fun u =>
  if u = priceUrl "foo" then .ok (Json.obj [])
  else if u = searchUrl "foo" then .ok (Json.obj [("coins", Json.arr [])])
  else .transportErr "unreached"⟩

/-- The direct price call receives a body that is not valid JSON. -/
def envC4cex : Env := ⟨fun u =>
  if u = priceUrl "btc" then
    .badJson "Expecting value: line 1 column 1 (char 0)"
  else .transportErr "unreached"⟩

/-- The direct price call decodes to a bare number, so the hit test
`'btc' in data` raises TypeError. -/
def envC4w : Env := ⟨fun u =>
  if u = priceUrl "btc" then .ok (Json.num "7")
  else .transportErr "unreached"⟩

/-- Direct miss and successful search; the fallback price call fails at
the transport level. -/
def envC5 : Env := ⟨fun u =>
  if u = priceUrl "btc" then .ok (Json.obj [])
  else if u = searchUrl "btc" then
    .ok (Json.obj [("coins", Json.arr [Json.obj [("id", Json.str "bitcoin")]])])
  else if u = priceUrl "bitcoin" then .transportErr "Connection refused"
  else .badJson "unreached"⟩

/-- Direct miss and successful search; the fallback price body lacks a
`usd` entry for the resolved id. -/
def envC6 : Env := ⟨fun u =>
  if u = priceUrl "btc" then .ok (Json.obj [])
  else if u = searchUrl "btc" then
    .ok (Json.obj [("coins", Json.arr [Json.obj [("id", Json.str "bitcoin")]])])
  else if u = priceUrl "bitcoin" then
    .ok (Json.obj [("bitcoin", Json.obj [])])
  else .transportErr "unreached"⟩

/-- An arbitrary environment. -/
def envC7 : Env := ⟨fun _ => .transportErr "offline"⟩

/-- An arbitrary environment. -/
def envC8 : Env := ⟨fun u =>
  if u = priceUrl "ada" then
    .ok (Json.obj [("ada", Json.obj [("usd", Json.num "0.45")])])
  else .transportErr "unreached"⟩

/-- The direct body has an entry for the key, but the entry is a bare
number, so `'usd' in data[key]` raises TypeError.  The search and
fallback responses would let the fallback succeed if it were reached. -/
def envC9cex : Env := ⟨fun u =>
  if u = priceUrl "btc" then .ok (Json.obj [("btc", Json.num "5")])
  else if u = searchUrl "btc" then
    .ok (Json.obj [("coins", Json.arr [Json.obj [("id", Json.str "bitcoin")]])])
  else if u = priceUrl "bitcoin" then
    .ok (Json.obj [("bitcoin", Json.obj [("usd", Json.num "9")])])
  else .transportErr "unreached"⟩

/-- The direct body has an object entry for the key that lacks `usd`. -/
def envC9w : Env := ⟨fun u =>
  if u = priceUrl "btc" then
    .ok (Json.obj [("btc", Json.obj [("eur", Json.num "4")])])
  else if u = searchUrl "btc" then .ok (Json.obj [("coins", Json.arr [])])
  else .transportErr "unreached"⟩

/-- Direct miss; the first search candidate carries no `id` field. -/
def envC10 : Env := ⟨fun u =>
  if u = priceUrl "btc" then .ok (Json.obj [])
  else if u = searchUrl "btc" then
    .ok (Json.obj [("coins", Json.arr
      [Json.obj [("name", Json.str "Bitcoin")],
       Json.obj [("id", Json.str "bitcoin")]])])
  else .transportErr "unreached"⟩

/-! Claim theorems. -/

/-- C1: whenever the direct price response body contains an entry keyed
by the lowercased token name whose `usd` field extraction yields `v`,
`crypto_price` returns the success outcome echoing the original
(un-lowercased) token name with price `"$<v> USD"` and no identifier
annotation.  The hypotheses constrain only the direct price URL's
response, so for every behaviour of the search fallback the same result
holds: the operation terminates on the direct path. -/
theorem direct_hit_returns_unannotated_price (env : Env) (t : String) (data v : Json)
    (h1 : env.fetch (priceUrl (pyLower t)) = .ok data)
    (h2 : hitCond data (.str (pyLower t)) = .ok true)
    (h3 : extractUsd data (.str (pyLower t)) = .ok v) :
    crypto_price env t = .priceResult t ("$" ++ v.pyStr ++ " USD") := by
  simp [crypto_price, cryptoPriceBody, fetchJson, h1, h2, h3, Bind.bind, Except.bind,
    handleExc, pure, Except.pure]

/-- C1 witness: `crypto_price("Bitcoin")` with the direct body
`{"bitcoin": {"usd": 65000}}` returns `{"token": "Bitcoin",
"price": "$65000 USD"}`. -/
theorem direct_hit_returns_unannotated_price_witness :
    crypto_price envC1 "Bitcoin" = .priceResult "Bitcoin" "$65000 USD" :=
  direct_hit_returns_unannotated_price envC1 "Bitcoin"
    (Json.obj [("bitcoin", Json.obj [("usd", Json.num "65000")])])
    (Json.num "65000") rfl rfl rfl

/-- C2: when the direct lookup misses, the search body is truthy with a
non-empty `coins` list, the first candidate's `id` resolves to `idj`,
and the follow-up price fetch for `idj` has a `usd` entry extracting to
`v`, `crypto_price` returns `"$<v> USD (found as <idj>)"` — annotated
with exactly the first candidate of the sequence, whatever the rest of
the list holds. -/
theorem fallback_returns_first_candidate_price (env : Env) (t : String)
    (data search_data c0 v idj price_data : Json) (rest : List Json)
    (h1 : env.fetch (priceUrl (pyLower t)) = .ok data)
    (h2 : hitCond data (.str (pyLower t)) = .ok false)
    (h3 : env.fetch (searchUrl t) = .ok search_data)
    (h4 : search_data.truthy = true)
    (h5 : pyGetKey search_data (Json.str "coins") = .ok (Json.arr (c0 :: rest)))
    (h6 : pyGetKey c0 (Json.str "id") = .ok idj)
    (h7 : env.fetch (priceUrl idj.pyStr) = .ok price_data)
    (h8 : hitCond price_data idj = .ok true)
    (h9 : extractUsd price_data idj = .ok v) :
    crypto_price env t =
      .priceResult t ("$" ++ v.pyStr ++ " USD (found as " ++ idj.pyStr ++ ")") := by
  simp [crypto_price, cryptoPriceBody, searchFallback, fetchJson, h1, h2, h3, h4, h5, h6,
    h7, h8, h9, Bind.bind, Except.bind, handleExc, pure, Except.pure,
    pyGetKey_arr_zero, truthy_arr_cons]

/-- C2 witness: `crypto_price("DOGE")` with a direct miss, search
candidates `[{"id": "dogecoin"}, {"id": "shiba"}]` and fallback body
`{"dogecoin": {"usd": 0.15}}` returns
`{"token": "DOGE", "price": "$0.15 USD (found as dogecoin)"}`. -/
theorem fallback_returns_first_candidate_price_witness :
    crypto_price envC2 "DOGE" =
      .priceResult "DOGE" "$0.15 USD (found as dogecoin)" :=
  fallback_returns_first_candidate_price envC2 "DOGE"
    (Json.obj []) (Json.obj [("coins", Json.arr
      [Json.obj [("id", Json.str "dogecoin")],
       Json.obj [("id", Json.str "shiba")]])])
    (Json.obj [("id", Json.str "dogecoin")]) (Json.num "0.15")
    (Json.str "dogecoin")
    (Json.obj [("dogecoin", Json.obj [("usd", Json.num "0.15")])])
    [Json.obj [("id", Json.str "shiba")]]
    rfl rfl rfl rfl rfl rfl rfl rfl rfl

/-- C3 counterexample: the claim also covers the case where the `coins`
field is absent from the search response, predicting the message
`"Could not find foo or its price."` there.  With a direct miss and the
search body `{"notcoins": null}` — a non-empty object with no `coins`
field — the code instead raises KeyError at `search_data['coins']` and
the catch-all returns `"An unexpected error occurred: 'coins'"`. -/
theorem absent_coins_field_counterexample :
    crypto_price envC3cex "foo" =
        .errorResult ("An unexpected error occurred: "
          ++ squote ++ "coins" ++ squote)
      ∧ crypto_price envC3cex "foo" ≠
        .errorResult "Could not find foo or its price." :=
  ⟨rfl, by decide⟩

/-- C3 amended: when the direct lookup misses and either the search
body is falsy (e.g. an empty object) or its `coins` entry is present
but falsy (e.g. an empty list), `crypto_price` returns the error
outcome `"Could not find <t> or its price."`.  (A non-empty search body
with the `coins` field absent instead yields the generic
unexpected-error message, per the counterexample.) -/
theorem empty_search_returns_not_found (env : Env) (t : String)
    (data search_data : Json)
    (h1 : env.fetch (priceUrl (pyLower t)) = .ok data)
    (h2 : hitCond data (.str (pyLower t)) = .ok false)
    (h3 : env.fetch (searchUrl t) = .ok search_data)
    (h4 : search_data.truthy = false
      ∨ ∃ c, pyGetKey search_data (Json.str "coins") = .ok c
          ∧ c.truthy = false) :
    crypto_price env t =
      .errorResult ("Could not find " ++ t ++ " or its price.") := by
  rcases h4 with h4 | ⟨c, hc, hct⟩
  · simp [crypto_price, cryptoPriceBody, searchFallback, fetchJson, h1, h2, h3, h4,
      Bind.bind, Except.bind, handleExc, pure, Except.pure]
  · by_cases ht : search_data.truthy = true
    · simp [crypto_price, cryptoPriceBody, searchFallback, fetchJson, h1, h2, h3, ht, hc,
        hct, Bind.bind, Except.bind, handleExc, pure, Except.pure]
    · simp [crypto_price, cryptoPriceBody, searchFallback, fetchJson, h1, h2, h3,
        Bool.eq_false_iff.mpr ht, Bind.bind, Except.bind, handleExc, pure, Except.pure]

/-- C3 witness: `crypto_price("foo")` with a direct miss and the search
body `{"coins": []}` returns `"Could not find foo or its price."`. -/
theorem empty_search_returns_not_found_witness :
    crypto_price envC3w "foo" =
      .errorResult "Could not find foo or its price." :=
  empty_search_returns_not_found envC3w "foo" (Json.obj [])
    (Json.obj [("coins", Json.arr [])])
    rfl rfl rfl (Or.inr ⟨Json.arr [], rfl, rfl⟩)

/-- C4 counterexample: the claim predicts the generic message — and
explicitly not the transport-failure message — for a malformed JSON
body.  But since requests 2.27, `response.json()` on a malformed body
raises `requests.exceptions.JSONDecodeError`, a `RequestException`
subclass, so the first `except` clause answers: with the direct price
response failing to decode, `crypto_price` returns the
transport-prefixed message, not the generic one. -/
theorem malformed_json_transport_message_counterexample :
    crypto_price envC4cex "btc" =
        .errorResult
          "Failed to fetch crypto price: Expecting value: line 1 column 1 (char 0)"
      ∧ crypto_price envC4cex "btc" ≠
        .errorResult
          "An unexpected error occurred: Expecting value: line 1 column 1 (char 0)" :=
  ⟨rfl, by decide⟩

/-- C4 amended: every non-`RequestException` failure of the body — in
particular an unexpected response shape at any of the three calls, such
as a non-container body making the membership test raise TypeError — is
converted by the catch-all into the generic message
`"An unexpected error occurred: <details>"`.  (A malformed JSON body is
not such a failure: it raises a `RequestException` subclass and takes
the transport-prefixed message, per the counterexample.)  The parts
cover: the catch-all boundary in general, and a bare-number body at the
first, second and third call respectively. -/
theorem non_request_failure_generic_message :
    (∀ (env : Env) (t d : String),
      cryptoPriceBody env t = .error (.otherExc d) →
        crypto_price env t = .errorResult ("An unexpected error occurred: " ++ d))
    ∧ (∀ (env : Env) (t s : String),
      env.fetch (priceUrl (pyLower t)) = .ok (Json.num s) →
        crypto_price env t = .errorResult ("An unexpected error occurred: "
          ++ ("argument of type " ++ squote ++ (Json.num s).pyTypeName ++ squote
            ++ " is not iterable")))
    ∧ (∀ (env : Env) (t s : String) (data : Json),
      env.fetch (priceUrl (pyLower t)) = .ok data →
      hitCond data (.str (pyLower t)) = .ok false →
      env.fetch (searchUrl t) = .ok (Json.num s) →
      (Json.num s).truthy = true →
        crypto_price env t = .errorResult ("An unexpected error occurred: "
          ++ (squote ++ (Json.num s).pyTypeName ++ squote
            ++ " object is not subscriptable")))
    ∧ (∀ (env : Env) (t s : String) (data search_data c0 idj : Json)
        (rest : List Json),
      env.fetch (priceUrl (pyLower t)) = .ok data →
      hitCond data (.str (pyLower t)) = .ok false →
      env.fetch (searchUrl t) = .ok search_data →
      search_data.truthy = true →
      pyGetKey search_data (Json.str "coins") = .ok (Json.arr (c0 :: rest)) →
      pyGetKey c0 (Json.str "id") = .ok idj →
      env.fetch (priceUrl idj.pyStr) = .ok (Json.num s) →
        crypto_price env t = .errorResult ("An unexpected error occurred: "
          ++ ("argument of type " ++ squote ++ (Json.num s).pyTypeName ++ squote
            ++ " is not iterable"))) := by
  refine ⟨fun env t d h => ?_, fun env t s h => ?_,
    fun env t s data h1 h2 h3 h4 => ?_,
    fun env t s data search_data c0 idj rest h1 h2 h3 h4 h5 h6 h7 => ?_⟩
  · simp [crypto_price, h, handleExc]
  · simp [crypto_price, cryptoPriceBody, fetchJson, h, hitCond, pyContains,
      Bind.bind, Except.bind, handleExc, pure, Except.pure, String.append_assoc]
  · simp [crypto_price, cryptoPriceBody, searchFallback, fetchJson, h1, h2, h3, h4,
      pyGetKey, Bind.bind, Except.bind, handleExc, pure, Except.pure,
      String.append_assoc]
  · have hhit : hitCond (Json.num s) idj
        = .error (.otherExc ("argument of type " ++ squote
          ++ (Json.num s).pyTypeName ++ squote ++ " is not iterable")) := rfl
    simp [crypto_price, cryptoPriceBody, searchFallback, fetchJson, h1, h2, h3, h4, h5,
      h6, h7, hhit, Bind.bind, Except.bind, handleExc, pure, Except.pure,
      pyGetKey_arr_zero, truthy_arr_cons, String.append_assoc]

/-- C4 witness: a direct price body decoding to the bare number `7`
makes `'btc' in data` raise TypeError, and the outcome carries the
generic unexpected-error message. -/
theorem non_request_failure_generic_message_witness :
    crypto_price envC4w "btc" =
      .errorResult ("An unexpected error occurred: "
        ++ ("argument of type " ++ squote ++ (Json.num "7").pyTypeName ++ squote
          ++ " is not iterable")) :=
  non_request_failure_generic_message.2.1 envC4w "btc" "7" rfl

/-- C5: every `RequestException` failure of the body — a transport
failure or non-2xx status at any of the up-to-three calls — is
converted into an error outcome whose message is prefixed
`"Failed to fetch crypto price: "`; the fault never escapes as an
unhandled exception (`crypto_price` is a total function into
`LookupOutcome`).  The parts cover: the handler boundary in general,
and a transport failure at the first, second and third call
respectively. -/
theorem transport_failure_prefixed_message :
    (∀ (env : Env) (t d : String),
      cryptoPriceBody env t = .error (.requestExc d) →
        crypto_price env t = .errorResult ("Failed to fetch crypto price: " ++ d))
    ∧ (∀ (env : Env) (t d : String),
      env.fetch (priceUrl (pyLower t)) = .transportErr d →
        crypto_price env t = .errorResult ("Failed to fetch crypto price: " ++ d))
    ∧ (∀ (env : Env) (t d : String) (data : Json),
      env.fetch (priceUrl (pyLower t)) = .ok data →
      hitCond data (.str (pyLower t)) = .ok false →
      env.fetch (searchUrl t) = .transportErr d →
        crypto_price env t = .errorResult ("Failed to fetch crypto price: " ++ d))
    ∧ (∀ (env : Env) (t d : String) (data search_data c0 idj : Json)
        (rest : List Json),
      env.fetch (priceUrl (pyLower t)) = .ok data →
      hitCond data (.str (pyLower t)) = .ok false →
      env.fetch (searchUrl t) = .ok search_data →
      search_data.truthy = true →
      pyGetKey search_data (Json.str "coins") = .ok (Json.arr (c0 :: rest)) →
      pyGetKey c0 (Json.str "id") = .ok idj →
      env.fetch (priceUrl idj.pyStr) = .transportErr d →
        crypto_price env t = .errorResult ("Failed to fetch crypto price: " ++ d)) := by
  refine ⟨fun env t d h => ?_, fun env t d h => ?_,
    fun env t d data h1 h2 h3 => ?_,
    fun env t d data search_data c0 idj rest h1 h2 h3 h4 h5 h6 h7 => ?_⟩
  · simp [crypto_price, h, handleExc]
  · simp [crypto_price, cryptoPriceBody, fetchJson, h, Bind.bind, Except.bind,
      handleExc, pure, Except.pure]
  · simp [crypto_price, cryptoPriceBody, searchFallback, fetchJson, h1, h2, h3,
      Bind.bind, Except.bind, handleExc, pure, Except.pure]
  · simp [crypto_price, cryptoPriceBody, searchFallback, fetchJson, h1, h2, h3, h4, h5,
      h6, h7, Bind.bind, Except.bind, handleExc, pure, Except.pure,
      pyGetKey_arr_zero, truthy_arr_cons]

/-- C5 witness: a transport failure at the third call (the fallback
price fetch) yields
`"Failed to fetch crypto price: Connection refused"`. -/
theorem transport_failure_prefixed_message_witness :
    crypto_price envC5 "btc" =
      .errorResult "Failed to fetch crypto price: Connection refused" :=
  transport_failure_prefixed_message.2.2.2 envC5 "btc" "Connection refused"
    (Json.obj [])
    (Json.obj [("coins", Json.arr [Json.obj [("id", Json.str "bitcoin")]])])
    (Json.obj [("id", Json.str "bitcoin")]) (Json.str "bitcoin") []
    rfl rfl rfl rfl rfl rfl rfl

/-- C6: when the direct lookup misses, the search resolves a first
candidate id `idj`, and the follow-up price fetch for `idj` returns a
body on which the hit test `idj in body and 'usd' in body[idj]`
evaluates to false (the expected entry or its `usd` field is missing),
`crypto_price` returns the error outcome
`"Could not find price for <t>."`. -/
theorem fallback_price_miss_message (env : Env) (t : String)
    (data search_data c0 idj price_data : Json) (rest : List Json)
    (h1 : env.fetch (priceUrl (pyLower t)) = .ok data)
    (h2 : hitCond data (.str (pyLower t)) = .ok false)
    (h3 : env.fetch (searchUrl t) = .ok search_data)
    (h4 : search_data.truthy = true)
    (h5 : pyGetKey search_data (Json.str "coins") = .ok (Json.arr (c0 :: rest)))
    (h6 : pyGetKey c0 (Json.str "id") = .ok idj)
    (h7 : env.fetch (priceUrl idj.pyStr) = .ok price_data)
    (h8 : hitCond price_data idj = .ok false) :
    crypto_price env t =
      .errorResult ("Could not find price for " ++ t ++ ".") := by
  simp [crypto_price, cryptoPriceBody, searchFallback, fetchJson, h1, h2, h3, h4, h5, h6,
    h7, h8, Bind.bind, Except.bind, handleExc, pure, Except.pure,
    pyGetKey_arr_zero, truthy_arr_cons]

/-- C6 witness: a direct miss for `btc`, search resolving `bitcoin`,
and fallback body `{"bitcoin": {}}` with no `usd` yields
`"Could not find price for btc."`. -/
theorem fallback_price_miss_message_witness :
    crypto_price envC6 "btc" =
      .errorResult "Could not find price for btc." :=
  fallback_price_miss_message envC6 "btc" (Json.obj [])
    (Json.obj [("coins", Json.arr [Json.obj [("id", Json.str "bitcoin")]])])
    (Json.obj [("id", Json.str "bitcoin")]) (Json.str "bitcoin")
    (Json.obj [("bitcoin", Json.obj [])]) []
    rfl rfl rfl rfl rfl rfl rfl rfl

/-- C7: for every environment behaviour (any responses, transport
faults or shapes at any URL) and every token name, `crypto_price` is a
total function returning exactly one of the two variants: a success
outcome carrying token and price, or an error outcome carrying a
message; and the two cases exclude each other.  No fault escapes: the
codomain is `LookupOutcome`, not an exception monad. -/
theorem always_structured_outcome (env : Env) (t : String) :
    ((∃ tok price, crypto_price env t = .priceResult tok price)
      ∨ (∃ e, crypto_price env t = .errorResult e))
    ∧ (∀ tok price e, crypto_price env t = .priceResult tok price →
        crypto_price env t = .errorResult e → False) := by
  refine ⟨?_, fun tok price e h1 h2 => by rw [h1] at h2; exact absurd h2 (by simp)⟩
  cases h : crypto_price env t with
  | priceResult a b => exact Or.inl ⟨a, b, rfl⟩
  | errorResult e => exact Or.inr ⟨e, rfl⟩

/-- C7 witness: at a concrete always-offline environment the outcome is
one of the two structured variants. -/
theorem always_structured_outcome_witness :
    (∃ tok price, crypto_price envC7 "btc" = .priceResult tok price)
      ∨ (∃ e, crypto_price envC7 "btc" = .errorResult e) :=
  (always_structured_outcome envC7 "btc").1

/-- C8: `crypto_price` is deterministic and stateless — its outcome is
a function of the token name and the upstream responses alone, so two
calls with the same token name against environments giving identical
responses return identical outcomes; no internal state survives a call
(the embedding threads no state at all). -/
theorem deterministic_under_same_upstream (env1 env2 : Env) (t : String)
    (h : ∀ u, env1.fetch u = env2.fetch u) :
    crypto_price env1 t = crypto_price env2 t := by
  obtain ⟨f1⟩ := env1
  obtain ⟨f2⟩ := env2
  have : f1 = f2 := funext h
  subst this
  rfl

/-- C8 witness: two calls against the same upstream data coincide. -/
theorem deterministic_under_same_upstream_witness :
    crypto_price envC8 "ADA" = crypto_price envC8 "ADA" :=
  deterministic_under_same_upstream envC8 envC8 "ADA" (fun _ => rfl)

/-- C9 counterexample: the claim predicts that whenever the direct
entry for the key exists but lacks a `usd` field the operation proceeds
to the search fallback.  With direct body `{"btc": 5}` — the entry is a
bare number, which has no `usd` field — the search fallback (which here
would succeed with `"$9 USD (found as bitcoin)"`) is never consulted:
`'usd' in data['btc']` raises TypeError and the catch-all returns the
generic error outcome instead. -/
theorem non_mapping_entry_counterexample :
    crypto_price envC9cex "btc" =
        .errorResult ("An unexpected error occurred: argument of type "
          ++ squote ++ "int" ++ squote ++ " is not iterable")
      ∧ crypto_price envC9cex "btc" ≠
        .priceResult "btc" "$9 USD (found as bitcoin)" :=
  ⟨rfl, by decide⟩

/-- C9 amended: when the direct body contains an entry for the
lowercased token name and the membership test `'usd' in entry`
evaluates (without raising) to false — in particular whenever the entry
is a JSON object lacking a `usd` key — the situation is treated exactly
like an absent entry: the computation continues with the search
fallback (the `else` branch), not with a price, a direct error, or an
escaping exception.  (If the entry is a non-container, the membership
test itself raises and the generic catch-all answers instead, per the
counterexample.) -/
theorem usd_less_entry_falls_back (env : Env) (t : String) (data entry : Json)
    (h1 : env.fetch (priceUrl (pyLower t)) = .ok data)
    (h2 : pyContains data (.str (pyLower t)) = .ok true)
    (h3 : pyGetKey data (.str (pyLower t)) = .ok entry)
    (h4 : pyContains entry (.str "usd") = .ok false) :
    crypto_price env t = handleExc (searchFallback env t) := by
  have hc : hitCond data (.str (pyLower t)) = .ok false := by
    simp [hitCond, h2, h3, h4, Bind.bind, Except.bind, pure, Except.pure]
  simp [crypto_price, cryptoPriceBody, fetchJson, h1, hc, Bind.bind, Except.bind]

/-- C9 witness: with direct body `{"btc": {"eur": 4}}` (entry present,
`usd` absent) the outcome is exactly the handled result of the search
fallback. -/
theorem usd_less_entry_falls_back_witness :
    crypto_price envC9w "btc" = handleExc (searchFallback envC9w "btc") :=
  usd_less_entry_falls_back envC9w "btc"
    (Json.obj [("btc", Json.obj [("eur", Json.num "4")])])
    (Json.obj [("eur", Json.num "4")]) rfl rfl rfl rfl

/-- C10: when the direct lookup misses, the search body has a non-empty
`coins` list, and the first candidate is an object with no `id` field,
`crypto_price` still returns a structured error outcome, and its
message is the generic `"An unexpected error occurred: 'id'"` (the
catch-all converting the KeyError), not either of the two lookup-miss
messages. -/
theorem first_candidate_without_id_generic_error (env : Env) (t : String)
    (data search_data : Json) (ckvs : List (String × Json)) (rest : List Json)
    (h1 : env.fetch (priceUrl (pyLower t)) = .ok data)
    (h2 : hitCond data (.str (pyLower t)) = .ok false)
    (h3 : env.fetch (searchUrl t) = .ok search_data)
    (h4 : search_data.truthy = true)
    (h5 : pyGetKey search_data (Json.str "coins")
      = .ok (Json.arr (Json.obj ckvs :: rest)))
    (h6 : ckvs.find? (fun kv => kv.1 == "id") = none) :
    crypto_price env t =
      .errorResult ("An unexpected error occurred: "
        ++ squote ++ "id" ++ squote) := by
  have hid : pyGetKey (Json.obj ckvs) (Json.str "id")
      = .error (.otherExc (squote ++ "id" ++ squote)) := by
    simp [pyGetKey, h6, Json.pyRepr]
  simp [crypto_price, cryptoPriceBody, searchFallback, fetchJson, h1, h2, h3, h4, h5,
    hid, Bind.bind, Except.bind, handleExc, pure, Except.pure,
    pyGetKey_arr_zero, truthy_arr_cons, String.append_assoc]

/-- C10 witness: with search candidates
`[{"name": "Bitcoin"}, {"id": "bitcoin"}]` the first candidate has no
`id` and the outcome is `"An unexpected error occurred: 'id'"`. -/
theorem first_candidate_without_id_generic_error_witness :
    crypto_price envC10 "btc" =
      .errorResult ("An unexpected error occurred: "
        ++ squote ++ "id" ++ squote) :=
  first_candidate_without_id_generic_error envC10 "btc" (Json.obj [])
    (Json.obj [("coins", Json.arr
      [Json.obj [("name", Json.str "Bitcoin")],
       Json.obj [("id", Json.str "bitcoin")]])])
    [("name", Json.str "Bitcoin")] [Json.obj [("id", Json.str "bitcoin")]]
    rfl rfl rfl rfl rfl rfl

end CryptoPrice
